import Mathlib

/-!
# xl710_unlock: the EEPROM offset walk, redundancy check and patch protocol

A shallow embedding of `src/xl710_unlock.c` (function `main`, lines 81 to 213,
that is everything after argument parsing, `socket` and `calloc` succeeded).

* The kernel side of `ioctl(fd, SIOCETHTOOL, &ifr)` is the *transport*: a
  function that sees the transactions issued so far and the request, and
  either fails (`ioctl` returns -1) or leaves a 16-bit word in the data buffer.
* Every `ioctl` call is recorded in a trace, so that statements on the order
  and the number of transactions are statements on a list.
* `uint16_t` values are natural numbers reduced modulo `2 ^ 16`, the `__u32`
  fields of `struct ethtool_eeprom` are reduced modulo `2 ^ 32`.
* The device id is the value of `strtol` as a natural number, and `mod` is 0.
* Output on stdout and the one second `sleep` between writes are not modelled.
-/

namespace Xl710Unlock

/-! ## Data model -/

/-- The two values that `eeprom->cmd` takes in the program. -/
inductive Cmd where
  | ETHTOOL_GEEPROM
  | ETHTOOL_SEEPROM
  deriving DecidableEq

/-- Constants of the header `syscalls.h`, which is not part of the sources:
they are parameters of the model. -/
structure Consts where
  I40E_NVM_SA : Nat
  I40E_NVM_CSUM : Nat
  I40E_NVM_TRANS_SHIFT : Nat
  deriving DecidableEq

/-- The `struct ethtool_eeprom` request block together with the first 16-bit
word of the data buffer behind it, `*(uint16_t*)(eeprom + 1)`. -/
structure Eeprom where
  cmd : Cmd
  magic : Nat
  offset : Nat
  len : Nat
  data : Nat
  deriving DecidableEq

/-- One `ioctl` call: the request as issued, and the answer of the transport
(`none` when the call returned -1). -/
structure Event where
  req : Eeprom
  resp : Option Nat
  deriving DecidableEq

/-- The EEPROM transport: from the calls made so far and the request, either a
failure or the word found in the data buffer after the call. -/
abbrev Transport := List Event → Eeprom → Option Nat

/-- The variables of `main` that the protocol uses, and the trace of calls. -/
structure Machine where
  eeprom : Eeprom
  trace : List Event
  emp_offset : Nat
  phy_offset : Nat
  phy_cap_size : Nat
  misc0 : Nat
  change_count : Nat
  patching : Nat
  deriving DecidableEq

/-- Progress of the run: still executing, or `die(reason)` was called, which
prints the reason and leaves with `EXIT_FAILURE`. -/
inductive Step where
  | cont (m : Machine)
  | died (m : Machine) (reason : String)
  deriving DecidableEq

/-- How the process ends: `return 0` from `main`, or `exit(EXIT_FAILURE)`
through `die`. -/
inductive Exit where
  | success
  | failure (reason : String)
  deriving DecidableEq

/-- The result of a run: the variables at the end and the way it ended. -/
structure Result where
  final : Machine
  exit : Exit
  deriving DecidableEq

/-! ## The program -/

/-- Sequencing: the next statement runs only if `die` was not called. -/
def Step.andThen (s : Step) (k : Machine → Step) : Step :=
  match s with
  | Step.cont m => k m
  | Step.died m r => Step.died m r

/-- `die`, lines 14 to 18. -/
def die (reason : String) (m : Machine) : Step :=
  Step.died m reason

/-- One call `ioctl(fd, SIOCETHTOOL, &ifr)`: the request block as it stands is
handed to the transport and recorded; on success the buffer holds the word the
transport produced. The boolean is `ioctl(...) != -1`. -/
def ioctl (t : Transport) (m : Machine) : Machine × Bool :=
  match t m.trace m.eeprom with
  | none => ({ m with trace := m.trace ++ [⟨m.eeprom, none⟩] }, false)
  | some w =>
    ({ m with eeprom := { m.eeprom with data := w % 2 ^ 16 },
              trace := m.trace ++ [⟨m.eeprom, some w⟩] }, true)

/-- The statement `if (ioctl(fd, SIOCETHTOOL, &ifr) == -1) die(reason);`. -/
def ioctlOrDie (t : Transport) (reason : String) (m : Machine) : Step :=
  match ioctl t m with
  | (m1, true) => Step.cont m1
  | (m1, false) => die reason m1

/-- The magic word, lines 82 and 203:
`(devid << 16) | (flags << I40E_NVM_TRANS_SHIFT) | mod`, stored in a `__u32`. -/
def magic (c : Consts) (devid flags mod : Nat) : Nat :=
  ((devid <<< 16) ||| (flags <<< c.I40E_NVM_TRANS_SHIFT) ||| mod) % 2 ^ 32

/-- The local `cap_offset`, line 109. -/
def cap_offset : Nat := 0x19

/-- The local `misc_offset`, line 138. -/
def misc_offset : Nat := 0x8

/-- Offset of the MISC read number `i`, line 147:
`(phy_offset + misc_offset + (phy_cap_size + 1) * i) << 1`, stored in the
`__u32` field `eeprom->offset`. -/
def readOffset (phy_offset phy_cap_size i : Nat) : Nat :=
  ((phy_offset + misc_offset + (phy_cap_size + 1) * i) <<< 1) % 2 ^ 32

/-- Offset of the patch write number `i`, line 190. -/
def writeOffset (phy_offset phy_cap_size i : Nat) : Nat :=
  ((phy_offset + misc_offset + (phy_cap_size + 1) * i) <<< 1) % 2 ^ 32

/-- Payload of a patch write, line 193: `misc0 ^ 0x0800` stored as `uint16_t`. -/
def payload (misc0 : Nat) : Nat :=
  (misc0 ^^^ 0x0800) % 2 ^ 16

/-- Lines 160 to 164: a reading that differs from `misc0` is counted and
becomes the new `misc0`. -/
def track (misc : Nat) (m : Machine) : Machine :=
  if misc ≠ m.misc0 then
    { m with change_count := m.change_count + 1, misc0 := misc }
  else m

/-- Lines 93 to 132: the three dependent reads. -/
def resolve (t : Transport) (m : Machine) : Step :=
  (ioctlOrDie t "ioctl"
    { m with eeprom := { m.eeprom with offset := (0x48 <<< 1) % 2 ^ 32 } }).andThen fun m1 =>
  let m1 := { m1 with emp_offset := m1.eeprom.data }
  (ioctlOrDie t "ioctl"
    { m1 with eeprom := { m1.eeprom with
        offset := ((m1.emp_offset + cap_offset) <<< 1) % 2 ^ 32 } }).andThen fun m2 =>
  let m2 := { m2 with
    phy_offset := (m2.eeprom.data + m2.emp_offset + cap_offset) % 2 ^ 16 }
  (ioctlOrDie t "ioctl"
    { m2 with eeprom := { m2.eeprom with
        offset := (m2.phy_offset <<< 1) % 2 ^ 32 } }).andThen fun m3 =>
  Step.cont { m3 with phy_cap_size := m3.eeprom.data }

/-- Lines 145 to 165: the loop `for (i = 0; i < 4; ++i)` over the four MISC
instances. `fuel` is the number of iterations left, `4 - i`. -/
def verifyLoop (t : Transport) : Nat → Nat → Machine → Step
  | 0, _, m => Step.cont m
  | fuel + 1, i, m =>
    (ioctlOrDie t "ioctl"
      { m with eeprom := { m.eeprom with
          offset := readOffset m.phy_offset m.phy_cap_size i } }).andThen fun m1 =>
    verifyLoop t fuel (i + 1) (track m1.eeprom.data m1)

/-- Line 167: more than one change ends the run. -/
def checkConsistent (m : Machine) : Step :=
  if m.change_count > 1 then die "Different MISC's values" m else Step.cont m

/-- Lines 174 to 183: the `switch` on the character read by `getchar`;
`patching` is 1 for `y` and `Y` and 0 for every other value of `choice`, the
end of input included. -/
def confirm (choice : Char) : Nat :=
  if choice = 'y' then 1 else if choice = 'Y' then 1 else 0

/-- Lines 187 to 198: the loop of the four patch writes. -/
def patchLoop (t : Transport) : Nat → Nat → Machine → Step
  | 0, _, m => Step.cont m
  | fuel + 1, i, m =>
    (ioctlOrDie t "write"
      { m with eeprom := { m.eeprom with
          cmd := Cmd.ETHTOOL_SEEPROM,
          offset := writeOffset m.phy_offset m.phy_cap_size i,
          data := payload m.misc0 } }).andThen fun m1 =>
    patchLoop t fuel (i + 1) m1

/-- Lines 202 to 210: the checksum update. -/
def checksum (c : Consts) (t : Transport) (devid mod : Nat) (m : Machine) : Step :=
  ioctlOrDie t "checksum"
    { m with eeprom := { m.eeprom with
        cmd := Cmd.ETHTOOL_SEEPROM,
        magic := magic c devid (c.I40E_NVM_CSUM ||| c.I40E_NVM_SA) mod,
        len := 2,
        offset := 0 } }

/-- Lines 185 to 211: the body of `if (patching)`. -/
def patch (c : Consts) (t : Transport) (devid mod : Nat) (m : Machine) : Step :=
  if m.patching ≠ 0 then
    (patchLoop t 4 0 m).andThen fun m1 => checksum c t devid mod m1
  else Step.cont m

/-- The state at line 92: the request block is zeroed by `calloc` and set up
for reading (lines 81 to 83), `misc0`, `change_count` and `patching` start at
zero (lines 38, 141, 142). -/
def init (c : Consts) (devid mod : Nat) : Machine :=
  { eeprom := { cmd := Cmd.ETHTOOL_GEEPROM,
                magic := magic c devid c.I40E_NVM_SA mod,
                offset := 0,
                len := 0x02,
                data := 0 },
    trace := [],
    emp_offset := 0,
    phy_offset := 0,
    phy_cap_size := 0,
    misc0 := 0x0,
    change_count := 0,
    patching := 0 }

/-- All statements of `main` from line 81 on, in order. -/
def body (c : Consts) (t : Transport) (devid : Nat) (choice : Char) : Step :=
  (resolve t (init c devid 0)).andThen fun m =>
  (verifyLoop t 4 0 m).andThen fun m =>
  (checkConsistent m).andThen fun m =>
  patch c t devid 0 { m with patching := confirm choice }

/-- The run of `main`: `return 0` when no `die` was reached. -/
def main (c : Consts) (t : Transport) (devid : Nat) (choice : Char) : Result :=
  match body c t devid choice with
  | Step.cont m => ⟨m, Exit.success⟩
  | Step.died m reason => ⟨m, Exit.failure reason⟩

/-! ## Observations on a run -/

/-- The answers of the transport, in the order of the calls. -/
def Result.responses (R : Result) : List (Option Nat) :=
  R.final.trace.map Event.resp

/-- The requests, in the order of the calls. -/
def Result.requests (R : Result) : List Eeprom :=
  R.final.trace.map Event.req

/-- The answers to the four MISC reads: the calls number 3 to 6, after the
three reads of the offset walk. -/
def Result.miscReads (R : Result) : List (Option Nat) :=
  (R.responses.drop 3).take 4

/-- The requests of the four MISC reads (calls number 3 to 6). -/
def Result.miscRequests (R : Result) : List Eeprom :=
  (R.requests.drop 3).take 4

/-- The requests of the four patch writes (calls number 7 to 10). -/
def Result.patchWrites (R : Result) : List Eeprom :=
  (R.requests.drop 7).take 4

/-- The write transactions of a run. -/
def Result.writes (R : Result) : List Eeprom :=
  R.requests.filter fun q => q.cmd = Cmd.ETHTOOL_SEEPROM

/-- The operator confirmed: the character read is `y` or `Y`. -/
def confirmed (choice : Char) : Prop :=
  choice = 'y' ∨ choice = 'Y'

instance (choice : Char) : Decidable (confirmed choice) := by
  unfold confirmed
  infer_instance

/-- Number of adjacent unequal pairs of a sequence of words. -/
def adjChanges : List Nat → Nat
  | a :: b :: rest => (if a = b then 0 else 1) + adjChanges (b :: rest)
  | _ => 0

/-- A property of the outcome of a step: `P` when the run goes on, `Q` when
`die` was called. -/
def Step.Sat (s : Step) (P : Machine → Prop) (Q : Machine → String → Prop) : Prop :=
  match s with
  | Step.cont m => P m
  | Step.died m r => Q m r

/-- Marks the property to establish at an end of the run, so that the case
analysis over the calls stops there. -/
@[irreducible] def Post (p : Prop) : Prop := p

/-! ## Scripted transports and constants used in the concrete checks -/

/-- The values of the i40e driver for the constants of `syscalls.h`. -/
def i40e : Consts :=
  { I40E_NVM_SA := 0x3, I40E_NVM_CSUM := 0x8, I40E_NVM_TRANS_SHIFT := 8 }

/-- A transport that answers the calls in order from a script and fails when
the script is exhausted or says so. -/
def scripted (script : List (Option Nat)) : Transport :=
  fun hist _ => (script.get? hist.length).join

/-- A transport that never fails: the calls are answered in order from a list
of words, with zero when the list is exhausted. -/
def always (words : List Nat) : Transport :=
  fun hist _ => some (words.getD hist.length 0)

/-- Scenario C: `EmpSrOffset = 0x0050`, raw value `0x0010`, `PhyCapSize = 0x0006`
and four MISC readings `0x0412`; every transaction succeeds. -/
def scenarioC : Transport :=
  always [0x0050, 0x0010, 0x0006, 0x0412, 0x0412, 0x0412, 0x0412]

/-- Scenario B: the MISC readings are `0x0000, 0x0800, 0x0000, 0x0800`. -/
def scenarioB : Transport :=
  always [0x0050, 0x0010, 0x0006, 0x0000, 0x0800, 0x0000, 0x0800]

/-- Scenario A with `A = 0x0412` on a device where every call succeeds. -/
def scenarioA : Transport :=
  always [0x0050, 0x0010, 0x0006, 0x0412, 0x0412, 0x0412, 0x0412]

/-- The first instance reads zero, the three others read `0x0800`. -/
def zeroThenLocked : Transport :=
  always [0x0050, 0x0010, 0x0006, 0x0000, 0x0800, 0x0800, 0x0800]

/-- The first instance reads `0x0800`, the three others read zero. -/
def lockedThenZero : Transport :=
  always [0x0050, 0x0010, 0x0006, 0x0800, 0x0000, 0x0000, 0x0000]

/-- Only the last instance reads `0x0412`, the three others read zero. -/
def lastOnly : Transport :=
  always [0x0050, 0x0010, 0x0006, 0x0000, 0x0000, 0x0000, 0x0412]

/-- Scenario C, except that the patch write number 2 fails. -/
def thirdWriteFails : Transport :=
  scripted [some 0x0050, some 0x0010, some 0x0006, some 0x0412, some 0x0412,
    some 0x0412, some 0x0412, some 0, some 0, none]

/-! ## Reasoning rules for steps -/

@[simp] theorem Sat_cont (m : Machine) (P : Machine → Prop) (Q : Machine → String → Prop) :
    (Step.cont m).Sat P Q ↔ P m := Iff.rfl

@[simp] theorem Sat_died (m : Machine) (r : String) (P : Machine → Prop)
    (Q : Machine → String → Prop) : (Step.died m r).Sat P Q ↔ Q m r := Iff.rfl

theorem Sat_andThen (s : Step) (k : Machine → Step) (P : Machine → Prop)
    (Q : Machine → String → Prop) :
    (s.andThen k).Sat P Q ↔ s.Sat (fun m => (k m).Sat P Q) Q := by
  cases s <;> simp [Step.andThen]

theorem Sat_ite (p : Prop) [Decidable p] (a b : Step) (P : Machine → Prop)
    (Q : Machine → String → Prop) :
    (if p then a else b).Sat P Q ↔ (p → a.Sat P Q) ∧ (¬p → b.Sat P Q) := by
  split <;> simp [*]

/-- A call either succeeds with some word `w`, which is then in the buffer, or
fails, and then `die` ends the run; either way the call is in the trace. -/
theorem Sat_ioctlOrDie (t : Transport) (reason : String) (m : Machine)
    (P : Machine → Prop) (Q : Machine → String → Prop) :
    (ioctlOrDie t reason m).Sat P Q ↔
      (∀ w, t m.trace m.eeprom = some w →
        P { m with eeprom := { m.eeprom with data := w % 2 ^ 16 },
                   trace := m.trace ++ [⟨m.eeprom, some w⟩] }) ∧
      (t m.trace m.eeprom = none →
        Q { m with trace := m.trace ++ [⟨m.eeprom, none⟩] } reason) := by
  unfold ioctlOrDie ioctl die
  cases h : t m.trace m.eeprom <;> simp

/-- A property of the result of `main` is a property of the outcome of its
body. -/
theorem Sat_main (Φ : Result → Prop) (c : Consts) (t : Transport) (devid : Nat)
    (choice : Char) :
    Φ (main c t devid choice) ↔
      (body c t devid choice).Sat (fun m => Φ ⟨m, Exit.success⟩)
        (fun m r => Φ ⟨m, Exit.failure r⟩) := by
  unfold main
  cases body c t devid choice <;> simp

theorem Post_iff (p : Prop) : Post p ↔ p := by
  unfold Post
  exact Iff.rfl

/-- The form of `Sat_main` used in the proofs: the property is wrapped at each
end of the run. -/
theorem Post_main (Φ : Result → Prop) (c : Consts) (t : Transport) (devid : Nat)
    (choice : Char)
    (h : (body c t devid choice).Sat (fun m => Post (Φ ⟨m, Exit.success⟩))
        (fun m r => Post (Φ ⟨m, Exit.failure r⟩))) : Φ (main c t devid choice) := by
  simp only [Post_iff] at h
  exact (Sat_main Φ c t devid choice).2 h

/-- The patch is entered exactly when the operator confirmed. -/
theorem confirm_eq_zero (choice : Char) : confirm choice = 0 ↔ ¬ confirmed choice := by
  unfold confirm confirmed
  by_cases h1 : choice = 'y'
  · simp [h1]
  · by_cases h2 : choice = 'Y'
    · simp [h2]
    · simp [h1, h2]

/-- The offset of a MISC read does not wrap around: it is twice the word
offset `phy_offset + 0x8 + i * (phy_cap_size + 1)`. -/
theorem readOffset_mod (a s i : Nat) (hi : i < 4) :
    readOffset (a % 65536) (s % 65536) i = 2 * (a % 65536 + 0x8 + i * (s % 65536 + 1)) := by
  unfold readOffset misc_offset
  rw [Nat.shiftLeft_eq]
  interval_cases i <;> omega

/-- The offset of a patch write does not wrap around either. -/
theorem writeOffset_mod (a s i : Nat) (hi : i < 4) :
    writeOffset (a % 65536) (s % 65536) i = 2 * (a % 65536 + 0x8 + i * (s % 65536 + 1)) := by
  unfold writeOffset misc_offset
  rw [Nat.shiftLeft_eq]
  interval_cases i <;> omega

/-- A 16-bit word keeps its upper bits through the toggle: nothing is cut off
by the store into a `uint16_t`. -/
theorem payload_eq (v : Nat) (hv : v < 2 ^ 16) : payload v = v ^^^ 0x0800 := by
  unfold payload
  exact Nat.mod_eq_of_lt (Nat.xor_lt_two_pow hv (by norm_num))

@[simp] theorem track_eeprom (x : Nat) (m : Machine) : (track x m).eeprom = m.eeprom := by
  unfold track; split <;> rfl

@[simp] theorem track_trace (x : Nat) (m : Machine) : (track x m).trace = m.trace := by
  unfold track; split <;> rfl

@[simp] theorem track_emp_offset (x : Nat) (m : Machine) :
    (track x m).emp_offset = m.emp_offset := by
  unfold track; split <;> rfl

@[simp] theorem track_phy_offset (x : Nat) (m : Machine) :
    (track x m).phy_offset = m.phy_offset := by
  unfold track; split <;> rfl

@[simp] theorem track_phy_cap_size (x : Nat) (m : Machine) :
    (track x m).phy_cap_size = m.phy_cap_size := by
  unfold track; split <;> rfl

@[simp] theorem track_patching (x : Nat) (m : Machine) :
    (track x m).patching = m.patching := by
  unfold track; split <;> rfl

/-- After a reading, `misc0` is that reading, counted or not. -/
@[simp] theorem track_misc0 (x : Nat) (m : Machine) : (track x m).misc0 = x := by
  unfold track; split
  · rfl
  · rename_i h; simp at h; exact h.symm

@[simp] theorem track_change_count (x : Nat) (m : Machine) :
    (track x m).change_count = m.change_count + (if m.misc0 = x then 0 else 1) := by
  unfold track; split <;> simp_all [eq_comm]

/-! ## The claims -/

set_option maxHeartbeats 4000000 in
/-- C1. Offset resolution: when the first three calls succeed and return the 16-bit
words `e`, `r` and `s`, they are reads at the byte offsets `2 * 0x48`, `2 * (e + 0x19)`
and `2 * P` with `P = (r + e + 0x19) mod 2 ^ 16`, and the run resolves
`emp_offset = e`, `phy_offset = P` and `phy_cap_size = s`; when `r + e + 0x19` fits in
16 bits, `phy_offset = r + e + 0x19`. -/
theorem C1_offset_resolution (c : Consts) (t : Transport) (devid : Nat) (choice : Char)
    (e r s : Nat) (he : e < 2 ^ 16) (hr : r < 2 ^ 16) (hs : s < 2 ^ 16)
    (h : (main c t devid choice).responses.take 3 = [some e, some r, some s]) :
    ((main c t devid choice).requests.take 3).map (fun q => (q.cmd, q.offset)) =
      [(Cmd.ETHTOOL_GEEPROM, 2 * 0x48), (Cmd.ETHTOOL_GEEPROM, 2 * (e + 0x19)),
       (Cmd.ETHTOOL_GEEPROM, 2 * ((r + e + 0x19) % 2 ^ 16))] ∧
    (main c t devid choice).final.emp_offset = e ∧
    (main c t devid choice).final.phy_offset = (r + e + 0x19) % 2 ^ 16 ∧
    (main c t devid choice).final.phy_cap_size = s ∧
    (r + e + 0x19 < 2 ^ 16 → (main c t devid choice).final.phy_offset = r + e + 0x19) := by
  revert h
  refine Post_main (fun R => R.responses.take 3 = [some e, some r, some s] →
    (R.requests.take 3).map (fun q => (q.cmd, q.offset)) =
      [(Cmd.ETHTOOL_GEEPROM, 2 * 0x48), (Cmd.ETHTOOL_GEEPROM, 2 * (e + 0x19)),
       (Cmd.ETHTOOL_GEEPROM, 2 * ((r + e + 0x19) % 2 ^ 16))] ∧
    R.final.emp_offset = e ∧
    R.final.phy_offset = (r + e + 0x19) % 2 ^ 16 ∧
    R.final.phy_cap_size = s ∧
    (r + e + 0x19 < 2 ^ 16 → R.final.phy_offset = r + e + 0x19)) c t devid choice ?_
  simp only [body, resolve, verifyLoop, checkConsistent, patch, patchLoop, checksum, init, die,
    Sat_andThen, Sat_ioctlOrDie, Sat_cont, Sat_died, Sat_ite, track_eeprom, track_trace,
    track_emp_offset, track_phy_offset, track_phy_cap_size, track_patching, track_misc0,
    track_change_count, List.nil_append, List.cons_append,
    List.append_assoc]
  repeat' first
    | refine And.intro ?_ ?_
    | (intro h; try (have hh : t _ _ = _ := h; clear hh h))
  all_goals
    unfold Post
    simp only [Result.responses, Result.requests, List.map, List.take, cap_offset,
      Nat.shiftLeft_eq]
    intro h
    simp at h
    try (obtain ⟨rfl, rfl, rfl⟩ := h
         simp [Nat.mod_eq_of_lt, he, hr, hs]
         omega)

/-- C1, witness: `e = 0x0050` and `r = 0x0010` give `phy_offset = 0x0079`. -/
theorem C1_offset_resolution_witness :
    (main i40e scenarioC 0x1572 'y').responses.take 3 =
      [some 0x0050, some 0x0010, some 0x0006] ∧
    (main i40e scenarioC 0x1572 'y').final.phy_offset = 0x0079 :=
  ⟨by decide,
   (C1_offset_resolution i40e scenarioC 0x1572 'y' 0x0050 0x0010 0x0006 (by decide)
      (by decide) (by decide) (by decide)).2.2.2.2 (by decide)⟩

/-- C2. A device whose first MISC instance reads zero while the three others read
`0x0800` shows two distinct values, yet the run counts one change only, does not
abort, and after a confirmation writes zero to all four instances; the mirrored
readings `0x0800, 0, 0, 0` are rejected. -/
theorem C2_leading_zero_not_detected :
    (main i40e zeroThenLocked 0x1572 'y').miscReads =
      [some 0, some 0x0800, some 0x0800, some 0x0800] ∧
    ([0, 0x0800, 0x0800, 0x0800] : List Nat).dedup.length = 2 ∧
    (main i40e zeroThenLocked 0x1572 'y').final.change_count = 1 ∧
    (main i40e zeroThenLocked 0x1572 'y').exit = Exit.success ∧
    (main i40e zeroThenLocked 0x1572 'y').patchWrites.map Eeprom.data = [0, 0, 0, 0] ∧
    (main i40e lockedThenZero 0x1572 'y').exit =
      Exit.failure "Different MISC's values" := by
  decide

set_option maxHeartbeats 4000000 in
/-- C3. Scenario A: when the four MISC readings are `A, A, A, A` for a 16-bit `A`
(zero included), the change counter is at most one, the run does not end with the
inconsistent-device error, `misc0` is `A`, and every patch write carries `A ^ 0x0800`. -/
theorem C3_scenario_A (c : Consts) (t : Transport) (devid : Nat) (choice : Char)
    (A : Nat) (hA : A < 2 ^ 16)
    (h : (main c t devid choice).miscReads = [some A, some A, some A, some A]) :
    (main c t devid choice).final.change_count ≤ 1 ∧
    (main c t devid choice).exit ≠ Exit.failure "Different MISC's values" ∧
    (main c t devid choice).final.misc0 = A ∧
    ∀ q ∈ (main c t devid choice).patchWrites, q.data = A ^^^ 0x0800 := by
  revert h
  refine Post_main (fun R => R.miscReads = [some A, some A, some A, some A] →
    R.final.change_count ≤ 1 ∧
    R.exit ≠ Exit.failure "Different MISC's values" ∧
    R.final.misc0 = A ∧
    ∀ q ∈ R.patchWrites, q.data = A ^^^ 0x0800) c t devid choice ?_
  simp only [body, resolve, verifyLoop, checkConsistent, patch, patchLoop, checksum, init, die,
    Sat_andThen, Sat_ioctlOrDie, Sat_cont, Sat_died, Sat_ite, track_eeprom, track_trace,
    track_emp_offset, track_phy_offset, track_phy_cap_size, track_patching, track_misc0,
    track_change_count, List.nil_append, List.cons_append,
    List.append_assoc]
  repeat' first
    | refine And.intro ?_ ?_
    | (intro h; try (have hh : t _ _ = _ := h; clear hh h))
  all_goals
    unfold Post
    simp only [Result.miscReads, Result.patchWrites, Result.responses, Result.requests]
    intro h
    simp at h
    try (obtain ⟨rfl, rfl, rfl, rfl⟩ := h
         simp_all [Nat.mod_eq_of_lt, payload_eq]
         try (split at h <;> omega))

/-- C3, witness: Scenario A with `A = 0x0412`. -/
theorem C3_scenario_A_witness :
    (main i40e scenarioA 0x1572 'y').miscReads =
      [some 0x0412, some 0x0412, some 0x0412, some 0x0412] ∧
    (main i40e scenarioA 0x1572 'y').final.change_count ≤ 1 ∧
    (main i40e scenarioA 0x1572 'y').final.misc0 = 0x0412 :=
  ⟨by decide,
   (C3_scenario_A i40e scenarioA 0x1572 'y' 0x0412 (by decide) (by decide)).1,
   (C3_scenario_A i40e scenarioA 0x1572 'y' 0x0412 (by decide) (by decide)).2.2.1⟩

/-- The payload computed from a word that was read. -/
theorem payload_mod (w : Nat) : payload (w % 65536) = (w % 65536) ^^^ 0x0800 :=
  payload_eq _ (Nat.mod_lt _ (by norm_num))

set_option maxHeartbeats 4000000 in
/-- C4. Toggle correctness: for a 16-bit authoritative value `v` the payload is
`v ^ 0x0800`, a 16-bit word whose bit 11 (the lock bit `0x0800`) is the negation of
that of `v` and whose other bits are those of `v`; toggling twice gives `v` back; and
in every run that ends with `misc0 = v` each patch write is a write of `v ^ 0x0800`. -/
theorem C4_toggle_correct (v : Nat) (hv : v < 2 ^ 16) :
    payload v = v ^^^ 0x0800 ∧
    payload v < 2 ^ 16 ∧
    (payload v).testBit 11 = !v.testBit 11 ∧
    (∀ j, j ≠ 11 → (payload v).testBit j = v.testBit j) ∧
    payload (payload v) = v ∧
    ∀ (c : Consts) (t : Transport) (devid : Nat) (choice : Char),
      (main c t devid choice).final.misc0 = v →
      ∀ q ∈ (main c t devid choice).patchWrites,
        q.cmd = Cmd.ETHTOOL_SEEPROM ∧ q.data = v ^^^ 0x0800 := by
  have hp : payload v = v ^^^ 0x0800 := payload_eq v hv
  have hlt : v ^^^ 0x0800 < 2 ^ 16 := Nat.xor_lt_two_pow hv (by norm_num)
  have h2048 : (0x0800 : Nat) = 2 ^ 11 := by norm_num
  refine ⟨hp, hp ▸ hlt, ?_, ?_, ?_, ?_⟩
  · rw [hp, Nat.testBit_xor, h2048, Nat.testBit_two_pow_self]
    cases v.testBit 11 <;> rfl
  · intro j hj
    rw [hp, Nat.testBit_xor, h2048, Nat.testBit_two_pow_of_ne (Ne.symm hj)]
    cases v.testBit j <;> rfl
  · rw [hp, payload_eq _ hlt, Nat.xor_assoc, Nat.xor_self, Nat.xor_zero]
  · intro c t devid choice
    refine Post_main (fun R => R.final.misc0 = v →
      ∀ q ∈ R.patchWrites, q.cmd = Cmd.ETHTOOL_SEEPROM ∧ q.data = v ^^^ 0x0800)
      c t devid choice ?_
    simp only [body, resolve, verifyLoop, checkConsistent, patch, patchLoop, checksum, init, die,
      Sat_andThen, Sat_ioctlOrDie, Sat_cont, Sat_died, Sat_ite, track_eeprom, track_trace,
      track_emp_offset, track_phy_offset, track_phy_cap_size, track_patching, track_misc0,
      track_change_count, List.nil_append, List.cons_append,
      List.append_assoc]
    repeat' first
      | refine And.intro ?_ ?_
      | (intro h; try (have hh : t _ _ = _ := h; clear hh h))
    all_goals
      unfold Post
      simp only [Result.patchWrites, Result.requests]
      intro h
      subst h
      simp [payload_mod]

/-- C4, witness: the authoritative value `0x0412` gives the payload `0x0C12`. -/
theorem C4_toggle_correct_witness :
    (0x0412 : Nat) < 2 ^ 16 ∧ payload 0x0412 = 0x0C12 ∧ payload (payload 0x0412) = 0x0412 :=
  ⟨by decide, (C4_toggle_correct 0x0412 (by decide)).1.trans (by decide),
   (C4_toggle_correct 0x0412 (by decide)).2.2.2.2.1⟩

set_option maxHeartbeats 2000000 in
/-- C5. No write without a consistent device and a confirmation: when the change
counter exceeds one, or the character read is neither `y` nor `Y`, the run issues no
write transaction, and every transaction it issues is a read. -/
theorem C5_no_write_unless_consistent_and_confirmed (c : Consts) (t : Transport)
    (devid : Nat) (choice : Char)
    (h : (main c t devid choice).final.change_count > 1 ∨ ¬ confirmed choice) :
    (main c t devid choice).writes = [] ∧
    ∀ q ∈ (main c t devid choice).requests, q.cmd = Cmd.ETHTOOL_GEEPROM := by
  revert h
  refine Post_main (fun R => (R.final.change_count > 1 ∨ ¬ confirmed choice) →
    R.writes = [] ∧ ∀ q ∈ R.requests, q.cmd = Cmd.ETHTOOL_GEEPROM) c t devid choice ?_
  simp only [body, resolve, verifyLoop, checkConsistent, patch, patchLoop, checksum, init, die,
    Sat_andThen, Sat_ioctlOrDie, Sat_cont, Sat_died, Sat_ite, track_eeprom, track_trace,
    track_emp_offset, track_phy_offset, track_phy_cap_size, track_patching, track_misc0,
    track_change_count, readOffset, writeOffset, List.nil_append, List.cons_append,
    List.append_assoc]
  repeat' first
    | refine And.intro ?_ ?_
    | (intro h; try (have hh : t _ _ = _ := h; clear hh h))
  all_goals
    unfold Post
    simp_all [Result.writes, Result.requests, confirm_eq_zero]

/-- C5, witnesses: Scenario B is inconsistent, and Scenario C without confirmation
issues its seven reads and nothing else. -/
theorem C5_no_write_witness :
    ((main i40e scenarioB 0x1572 'y').final.change_count > 1 ∨ ¬ confirmed 'y') ∧
    ((main i40e scenarioB 0x1572 'y').writes = [] ∧
      ∀ q ∈ (main i40e scenarioB 0x1572 'y').requests, q.cmd = Cmd.ETHTOOL_GEEPROM) ∧
    (main i40e scenarioC 0x1572 'n').writes = [] ∧
    (main i40e scenarioC 0x1572 'n').requests.length = 7 ∧
    (main i40e scenarioC 0x1572 'n').exit = Exit.success :=
  ⟨Or.inl (by decide),
   C5_no_write_unless_consistent_and_confirmed i40e scenarioB 0x1572 'y' (Or.inl (by decide)),
   (C5_no_write_unless_consistent_and_confirmed i40e scenarioC 0x1572 'n'
      (Or.inr (by decide))).1,
   by decide, by decide⟩

set_option maxHeartbeats 4000000 in
/-- C6. Fail-fast: every call but the last of a run succeeded, a run with a failed
call does not end in success, and when the patch write number `i` fails the run has
exactly `8 + i` calls (no later write, no checksum transaction) and ends with the
reason `write`, which is not the reason `checksum`. -/
theorem C6_fail_fast (c : Consts) (t : Transport) (devid : Nat) (choice : Char) :
    (∀ ev ∈ (main c t devid choice).final.trace.dropLast, ev.resp ≠ none) ∧
    ((∃ ev ∈ (main c t devid choice).final.trace, ev.resp = none) →
      (main c t devid choice).exit ≠ Exit.success) ∧
    (∀ i, i < 4 → (main c t devid choice).responses.get? (7 + i) = some none →
      (main c t devid choice).final.trace.length = 8 + i ∧
      (main c t devid choice).exit = Exit.failure "write" ∧
      (main c t devid choice).exit ≠ Exit.failure "checksum" ∧
      ∀ q ∈ (main c t devid choice).requests,
        ¬ (q.cmd = Cmd.ETHTOOL_SEEPROM ∧ q.offset = 0)) := by
  refine Post_main (fun R =>
    (∀ ev ∈ R.final.trace.dropLast, ev.resp ≠ none) ∧
    ((∃ ev ∈ R.final.trace, ev.resp = none) → R.exit ≠ Exit.success) ∧
    (∀ i, i < 4 → R.responses.get? (7 + i) = some none →
      R.final.trace.length = 8 + i ∧
      R.exit = Exit.failure "write" ∧
      R.exit ≠ Exit.failure "checksum" ∧
      ∀ q ∈ R.requests, ¬ (q.cmd = Cmd.ETHTOOL_SEEPROM ∧ q.offset = 0))) c t devid choice ?_
  simp only [body, resolve, verifyLoop, checkConsistent, patch, patchLoop, checksum, init, die,
    Sat_andThen, Sat_ioctlOrDie, Sat_cont, Sat_died, Sat_ite, track_eeprom, track_trace,
    track_emp_offset, track_phy_offset, track_phy_cap_size, track_patching, track_misc0,
    track_change_count, List.nil_append, List.cons_append,
    List.append_assoc]
  repeat' first
    | refine And.intro ?_ ?_
    | (intro h; try (have hh : t _ _ = _ := h; clear hh h))
  all_goals
    unfold Post
    refine ⟨by simp, by simp, ?_⟩
    intro i hi
    simp only [Result.responses, Result.requests, cap_offset]
    interval_cases i <;> simp [readOffset_mod, writeOffset_mod]

/-- C6, witness: in Scenario C with a failing third patch write (`i = 2`) the run
stops after ten calls with the reason `write`. -/
theorem C6_fail_fast_witness :
    (main i40e thirdWriteFails 0x1572 'y').responses.get? (7 + 2) = some none ∧
    (main i40e thirdWriteFails 0x1572 'y').final.trace.length = 8 + 2 ∧
    (main i40e thirdWriteFails 0x1572 'y').exit = Exit.failure "write" :=
  ⟨by decide,
   ((C6_fail_fast i40e thirdWriteFails 0x1572 'y').2.2 2 (by decide) (by decide)).1,
   ((C6_fail_fast i40e thirdWriteFails 0x1572 'y').2.2 2 (by decide) (by decide)).2.1⟩

/-- The scripted transport of Scenario C never fails. -/
theorem always_ne_none (words : List Nat) (hist : List Event) (q : Eeprom) :
    always words hist q ≠ none := by
  simp [always]

set_option maxHeartbeats 4000000 in
/-- C7. Full success path. In Scenario C with a confirmation the run issues three
reads of the offset walk (`PhyCapOffset = 0x0079`), four MISC reads, four writes with
payload `0x0C12` at the addresses that were read, and one checksum write with the
flags `I40E_NVM_CSUM | I40E_NVM_SA`, length 2 and offset 0, and it returns 0. For
every transport that never fails, with accepted readings and a confirmation, the run
is seven reads, four patch writes and the checksum write, in that order, and it
returns 0. -/
theorem C7_full_success_path :
    ((main i40e scenarioC 0x1572 'y').exit = Exit.success ∧
     (main i40e scenarioC 0x1572 'y').final.phy_offset = 0x0079 ∧
     (main i40e scenarioC 0x1572 'y').final.phy_cap_size = 0x0006 ∧
     (main i40e scenarioC 0x1572 'y').requests.map
        (fun q => (q.cmd, q.offset, q.len)) =
       [(Cmd.ETHTOOL_GEEPROM, 2 * 0x48, 2), (Cmd.ETHTOOL_GEEPROM, 2 * 0x69, 2),
        (Cmd.ETHTOOL_GEEPROM, 2 * 0x79, 2),
        (Cmd.ETHTOOL_GEEPROM, 2 * 0x81, 2), (Cmd.ETHTOOL_GEEPROM, 2 * 0x88, 2),
        (Cmd.ETHTOOL_GEEPROM, 2 * 0x8f, 2), (Cmd.ETHTOOL_GEEPROM, 2 * 0x96, 2),
        (Cmd.ETHTOOL_SEEPROM, 2 * 0x81, 2), (Cmd.ETHTOOL_SEEPROM, 2 * 0x88, 2),
        (Cmd.ETHTOOL_SEEPROM, 2 * 0x8f, 2), (Cmd.ETHTOOL_SEEPROM, 2 * 0x96, 2),
        (Cmd.ETHTOOL_SEEPROM, 0, 2)] ∧
     (main i40e scenarioC 0x1572 'y').patchWrites.map Eeprom.data =
       [0x0C12, 0x0C12, 0x0C12, 0x0C12] ∧
     (main i40e scenarioC 0x1572 'y').requests.map Eeprom.magic =
       List.replicate 11 (magic i40e 0x1572 i40e.I40E_NVM_SA 0) ++
         [magic i40e 0x1572 (i40e.I40E_NVM_CSUM ||| i40e.I40E_NVM_SA) 0]) ∧
    ∀ (c : Consts) (t : Transport) (devid : Nat) (choice : Char),
      (∀ hist q, t hist q ≠ none) →
      (main c t devid choice).final.change_count ≤ 1 →
      confirmed choice →
      (main c t devid choice).exit = Exit.success ∧
      (main c t devid choice).requests.map (fun q => (q.cmd, q.offset, q.len, q.magic)) =
        [(Cmd.ETHTOOL_GEEPROM, 2 * 0x48, 2, magic c devid c.I40E_NVM_SA 0),
         (Cmd.ETHTOOL_GEEPROM, 2 * ((main c t devid choice).final.emp_offset + 0x19), 2,
            magic c devid c.I40E_NVM_SA 0),
         (Cmd.ETHTOOL_GEEPROM, 2 * (main c t devid choice).final.phy_offset, 2,
            magic c devid c.I40E_NVM_SA 0),
         (Cmd.ETHTOOL_GEEPROM, readOffset (main c t devid choice).final.phy_offset
            (main c t devid choice).final.phy_cap_size 0, 2, magic c devid c.I40E_NVM_SA 0),
         (Cmd.ETHTOOL_GEEPROM, readOffset (main c t devid choice).final.phy_offset
            (main c t devid choice).final.phy_cap_size 1, 2, magic c devid c.I40E_NVM_SA 0),
         (Cmd.ETHTOOL_GEEPROM, readOffset (main c t devid choice).final.phy_offset
            (main c t devid choice).final.phy_cap_size 2, 2, magic c devid c.I40E_NVM_SA 0),
         (Cmd.ETHTOOL_GEEPROM, readOffset (main c t devid choice).final.phy_offset
            (main c t devid choice).final.phy_cap_size 3, 2, magic c devid c.I40E_NVM_SA 0),
         (Cmd.ETHTOOL_SEEPROM, writeOffset (main c t devid choice).final.phy_offset
            (main c t devid choice).final.phy_cap_size 0, 2, magic c devid c.I40E_NVM_SA 0),
         (Cmd.ETHTOOL_SEEPROM, writeOffset (main c t devid choice).final.phy_offset
            (main c t devid choice).final.phy_cap_size 1, 2, magic c devid c.I40E_NVM_SA 0),
         (Cmd.ETHTOOL_SEEPROM, writeOffset (main c t devid choice).final.phy_offset
            (main c t devid choice).final.phy_cap_size 2, 2, magic c devid c.I40E_NVM_SA 0),
         (Cmd.ETHTOOL_SEEPROM, writeOffset (main c t devid choice).final.phy_offset
            (main c t devid choice).final.phy_cap_size 3, 2, magic c devid c.I40E_NVM_SA 0),
         (Cmd.ETHTOOL_SEEPROM, 0, 2,
            magic c devid (c.I40E_NVM_CSUM ||| c.I40E_NVM_SA) 0)] ∧
      (main c t devid choice).patchWrites.map Eeprom.data =
        List.replicate 4 (payload (main c t devid choice).final.misc0) := by
  refine ⟨by decide, ?_⟩
  intro c t devid choice hall
  refine Post_main (fun R => R.final.change_count ≤ 1 → confirmed choice →
      R.exit = Exit.success ∧
      R.requests.map (fun q => (q.cmd, q.offset, q.len, q.magic)) =
        [(Cmd.ETHTOOL_GEEPROM, 2 * 0x48, 2, magic c devid c.I40E_NVM_SA 0),
         (Cmd.ETHTOOL_GEEPROM, 2 * (R.final.emp_offset + 0x19), 2,
            magic c devid c.I40E_NVM_SA 0),
         (Cmd.ETHTOOL_GEEPROM, 2 * R.final.phy_offset, 2, magic c devid c.I40E_NVM_SA 0),
         (Cmd.ETHTOOL_GEEPROM, readOffset R.final.phy_offset R.final.phy_cap_size 0, 2,
            magic c devid c.I40E_NVM_SA 0),
         (Cmd.ETHTOOL_GEEPROM, readOffset R.final.phy_offset R.final.phy_cap_size 1, 2,
            magic c devid c.I40E_NVM_SA 0),
         (Cmd.ETHTOOL_GEEPROM, readOffset R.final.phy_offset R.final.phy_cap_size 2, 2,
            magic c devid c.I40E_NVM_SA 0),
         (Cmd.ETHTOOL_GEEPROM, readOffset R.final.phy_offset R.final.phy_cap_size 3, 2,
            magic c devid c.I40E_NVM_SA 0),
         (Cmd.ETHTOOL_SEEPROM, writeOffset R.final.phy_offset R.final.phy_cap_size 0, 2,
            magic c devid c.I40E_NVM_SA 0),
         (Cmd.ETHTOOL_SEEPROM, writeOffset R.final.phy_offset R.final.phy_cap_size 1, 2,
            magic c devid c.I40E_NVM_SA 0),
         (Cmd.ETHTOOL_SEEPROM, writeOffset R.final.phy_offset R.final.phy_cap_size 2, 2,
            magic c devid c.I40E_NVM_SA 0),
         (Cmd.ETHTOOL_SEEPROM, writeOffset R.final.phy_offset R.final.phy_cap_size 3, 2,
            magic c devid c.I40E_NVM_SA 0),
         (Cmd.ETHTOOL_SEEPROM, 0, 2,
            magic c devid (c.I40E_NVM_CSUM ||| c.I40E_NVM_SA) 0)] ∧
      R.patchWrites.map Eeprom.data = List.replicate 4 (payload R.final.misc0))
      c t devid choice ?_
  simp only [body, resolve, verifyLoop, checkConsistent, patch, patchLoop, checksum, init, die,
    Sat_andThen, Sat_ioctlOrDie, Sat_cont, Sat_died, Sat_ite, track_eeprom, track_trace,
    track_emp_offset, track_phy_offset, track_phy_cap_size, track_patching, track_misc0,
    track_change_count, List.nil_append, List.cons_append,
    List.append_assoc]
  repeat' first
    | refine And.intro ?_ ?_
    | (intro h
       try (first
         | exact absurd h (hall _ _)
         | (have hh : t _ _ = _ := h; clear hh h)))
  all_goals
    unfold Post
    simp only [Result.patchWrites, Result.requests, cap_offset, Nat.shiftLeft_eq]
    simp_all [confirm_eq_zero, Nat.mod_eq_of_lt]
    try omega

/-- C7, witness: the general statement at Scenario C. -/
theorem C7_full_success_path_witness :
    (∀ hist q, scenarioC hist q ≠ none) ∧
    (main i40e scenarioC 0x1572 'y').final.change_count ≤ 1 ∧
    confirmed 'y' ∧
    (main i40e scenarioC 0x1572 'y').exit = Exit.success :=
  ⟨always_ne_none _, by decide, by decide,
   (C7_full_success_path.2 i40e scenarioC 0x1572 'y' (always_ne_none _) (by decide)
      (by decide)).1⟩

set_option maxHeartbeats 8000000 in
/-- C8. The patch touches exactly the words that were verified: in every run, with
`P` and `s` the resolved `phy_offset` and `phy_cap_size` (16-bit words), the MISC read
number `i` and the patch write number `i` are both at the byte offset
`2 * (P + 0x8 + i * (s + 1))`, without wrap-around, and these four addresses are
pairwise distinct; for all 16-bit `P` and `s` the expressions of lines 147 and 190
have this value. -/
theorem C8_patch_touches_verified_words (c : Consts) (t : Transport) (devid : Nat)
    (choice : Char) (i : Nat) (hi : i < 4) :
    (main c t devid choice).final.phy_offset < 2 ^ 16 ∧
    (main c t devid choice).final.phy_cap_size < 2 ^ 16 ∧
    (∀ q, (main c t devid choice).miscRequests.get? i = some q →
      q.cmd = Cmd.ETHTOOL_GEEPROM ∧
      q.offset = 2 * ((main c t devid choice).final.phy_offset + 0x8 +
        i * ((main c t devid choice).final.phy_cap_size + 1))) ∧
    (∀ q, (main c t devid choice).patchWrites.get? i = some q →
      q.cmd = Cmd.ETHTOOL_SEEPROM ∧
      q.offset = 2 * ((main c t devid choice).final.phy_offset + 0x8 +
        i * ((main c t devid choice).final.phy_cap_size + 1)) ∧
      ((main c t devid choice).miscRequests.get? i).map Eeprom.offset = some q.offset) ∧
    (∀ j, j < 4 → j ≠ i →
      2 * ((main c t devid choice).final.phy_offset + 0x8 +
        j * ((main c t devid choice).final.phy_cap_size + 1)) ≠
      2 * ((main c t devid choice).final.phy_offset + 0x8 +
        i * ((main c t devid choice).final.phy_cap_size + 1))) ∧
    (∀ P s, P < 2 ^ 16 → s < 2 ^ 16 →
      writeOffset P s i = readOffset P s i ∧
      readOffset P s i = 2 * (P + 0x8 + i * (s + 1))) := by
  have hpure : ∀ P s, P < 2 ^ 16 → s < 2 ^ 16 →
      writeOffset P s i = readOffset P s i ∧
      readOffset P s i = 2 * (P + 0x8 + i * (s + 1)) := by
    intro P s hP hs
    have h := readOffset_mod P s i hi
    have hP' : P % 65536 = P := Nat.mod_eq_of_lt hP
    have hs' : s % 65536 = s := Nat.mod_eq_of_lt hs
    rw [hP', hs'] at h
    exact ⟨rfl, h⟩
  refine (fun (key : _ ∧ _ ∧ _ ∧ _ ∧ _) =>
    ⟨key.1, key.2.1, key.2.2.1, key.2.2.2.1, key.2.2.2.2, hpure⟩) ?_
  refine Post_main (fun R =>
    R.final.phy_offset < 2 ^ 16 ∧
    R.final.phy_cap_size < 2 ^ 16 ∧
    (∀ q, R.miscRequests.get? i = some q →
      q.cmd = Cmd.ETHTOOL_GEEPROM ∧
      q.offset = 2 * (R.final.phy_offset + 0x8 + i * (R.final.phy_cap_size + 1))) ∧
    (∀ q, R.patchWrites.get? i = some q →
      q.cmd = Cmd.ETHTOOL_SEEPROM ∧
      q.offset = 2 * (R.final.phy_offset + 0x8 + i * (R.final.phy_cap_size + 1)) ∧
      (R.miscRequests.get? i).map Eeprom.offset = some q.offset) ∧
    (∀ j, j < 4 → j ≠ i →
      2 * (R.final.phy_offset + 0x8 + j * (R.final.phy_cap_size + 1)) ≠
      2 * (R.final.phy_offset + 0x8 + i * (R.final.phy_cap_size + 1)))) c t devid choice ?_
  simp only [body, resolve, verifyLoop, checkConsistent, patch, patchLoop, checksum, init, die,
    Sat_andThen, Sat_ioctlOrDie, Sat_cont, Sat_died, Sat_ite, track_eeprom, track_trace,
    track_emp_offset, track_phy_offset, track_phy_cap_size, track_patching, track_misc0,
    track_change_count, List.nil_append, List.cons_append,
    List.append_assoc]
  repeat' first
    | refine And.intro ?_ ?_
    | (intro h; try (have hh : t _ _ = _ := h; clear hh h))
  all_goals
    unfold Post
    simp only [Result.miscRequests, Result.patchWrites, Result.requests, cap_offset]
    refine ⟨by simp <;> omega, by simp <;> omega, ?_, ?_, ?_⟩
    · interval_cases i <;> simp [readOffset_mod]
    · interval_cases i <;> simp [readOffset_mod, writeOffset_mod]
    · intro j hj hne
      interval_cases i <;> interval_cases j <;> simp at hne ⊢

/-- C8, witness: in Scenario C the read and the write of instance 2 are both at
`2 * (0x79 + 0x8 + 2 * (0x6 + 1))`. -/
theorem C8_patch_touches_verified_words_witness :
    (2 : Nat) < 4 ∧
    ((main i40e scenarioC 0x1572 'y').miscRequests.get? 2).map Eeprom.offset =
      some (2 * (0x79 + 0x8 + 2 * (0x6 + 1))) ∧
    ((main i40e scenarioC 0x1572 'y').patchWrites.get? 2).map Eeprom.offset =
      some (2 * (0x79 + 0x8 + 2 * (0x6 + 1))) ∧
    (main i40e scenarioC 0x1572 'y').final.phy_offset < 2 ^ 16 :=
  ⟨by decide, by decide, by decide,
   (C8_patch_touches_verified_words i40e scenarioC 0x1572 'y' 2 (by decide)).1⟩

/-- The sequences with at most one change after the initial zero are the
sequences `0, ..., 0, A, ..., A`. -/
theorem adjChanges_le_one_iff (r0 r1 r2 r3 : Nat) :
    adjChanges [0, r0, r1, r2, r3] ≤ 1 ↔
      ∃ k A, k ≤ 4 ∧ [r0, r1, r2, r3] = List.replicate k 0 ++ List.replicate (4 - k) A := by
  constructor
  · intro h
    simp only [adjChanges] at h
    split_ifs at h with h0 h1 h2 h3
    all_goals
      first
        | omega
        | (subst_vars
           first
             | exact ⟨4, 0, by decide, rfl⟩
             | exact ⟨3, _, by decide, rfl⟩
             | exact ⟨2, _, by decide, rfl⟩
             | exact ⟨1, _, by decide, rfl⟩
             | exact ⟨0, _, by decide, rfl⟩)
  · rintro ⟨k, A, hk, heq⟩
    interval_cases k <;> simp [List.replicate] at heq <;>
      obtain ⟨rfl, rfl, rfl, rfl⟩ := heq <;> simp [adjChanges] <;> split <;> omega

set_option maxHeartbeats 4000000 in
/-- C9. Exact acceptance set of the accumulator: for 16-bit readings `r0, r1, r2, r3`
the change counter is the number of adjacent unequal pairs of `0, r0, r1, r2, r3`;
it is at most one exactly when the readings are some zeros followed by copies of
one value; and the run ends with the inconsistent-device error exactly when the
counter exceeds one. -/
theorem C9_acceptance_set (c : Consts) (t : Transport) (devid : Nat) (choice : Char)
    (r0 r1 r2 r3 : Nat) (h0 : r0 < 2 ^ 16) (h1 : r1 < 2 ^ 16) (h2 : r2 < 2 ^ 16)
    (h3 : r3 < 2 ^ 16)
    (h : (main c t devid choice).miscReads = [some r0, some r1, some r2, some r3]) :
    (main c t devid choice).final.change_count = adjChanges [0, r0, r1, r2, r3] ∧
    ((main c t devid choice).final.change_count ≤ 1 ↔
      ∃ k A, k ≤ 4 ∧ [r0, r1, r2, r3] = List.replicate k 0 ++ List.replicate (4 - k) A) ∧
    ((main c t devid choice).exit = Exit.failure "Different MISC's values" ↔
      1 < (main c t devid choice).final.change_count) := by
  have key : (main c t devid choice).final.change_count = adjChanges [0, r0, r1, r2, r3] ∧
      ((main c t devid choice).exit = Exit.failure "Different MISC's values" ↔
        1 < (main c t devid choice).final.change_count) := by
    have h0 : r0 < 65536 := h0
    have h1 : r1 < 65536 := h1
    have h2 : r2 < 65536 := h2
    have h3 : r3 < 65536 := h3
    revert h
    refine Post_main (fun R => R.miscReads = [some r0, some r1, some r2, some r3] →
      R.final.change_count = adjChanges [0, r0, r1, r2, r3] ∧
      (R.exit = Exit.failure "Different MISC's values" ↔ 1 < R.final.change_count))
      c t devid choice ?_
    simp only [body, resolve, verifyLoop, checkConsistent, patch, patchLoop, checksum, init, die,
      Sat_andThen, Sat_ioctlOrDie, Sat_cont, Sat_died, Sat_ite, track_eeprom, track_trace,
      track_emp_offset, track_phy_offset, track_phy_cap_size, track_patching, track_misc0,
      track_change_count, List.nil_append, List.cons_append,
      List.append_assoc]
    repeat' first
      | refine And.intro ?_ ?_
      | (intro h; try (have hh : t _ _ = _ := h; clear hh h))
    all_goals
      unfold Post
      simp only [Result.miscReads, Result.responses]
      intro h
      simp at h
      try (obtain ⟨rfl, rfl, rfl, rfl⟩ := h
           simp_all [Nat.mod_eq_of_lt, adjChanges]
           try omega)
  refine ⟨key.1, ?_, key.2⟩
  rw [key.1]
  exact adjChanges_le_one_iff r0 r1 r2 r3

/-- C9, witness: the readings `0, 0x0800, 0x0800, 0x0800` are accepted with one
change, the readings of Scenario B are not. -/
theorem C9_acceptance_set_witness :
    (main i40e zeroThenLocked 0x1572 'n').miscReads =
      [some 0, some 0x0800, some 0x0800, some 0x0800] ∧
    (main i40e zeroThenLocked 0x1572 'n').final.change_count = 1 ∧
    adjChanges [0, 0, 0x0800, 0x0800, 0x0800] = 1 ∧
    (main i40e scenarioB 0x1572 'n').exit = Exit.failure "Different MISC's values" :=
  ⟨by decide,
   (C9_acceptance_set i40e zeroThenLocked 0x1572 'n' 0 0x0800 0x0800 0x0800
      (by decide) (by decide) (by decide) (by decide) (by decide)).1.trans (by decide),
   by decide,
   by decide⟩

set_option maxHeartbeats 4000000 in
/-- C10. The authoritative value is the last reading: when the fourth MISC read
returned the 16-bit word `r3`, `misc0` is `r3` at the end of the run, whatever the
three readings before and whether or not the run then aborts, and every patch write
is a write of `r3 ^ 0x0800`. -/
theorem C10_authoritative_is_last_reading (c : Consts) (t : Transport) (devid : Nat)
    (choice : Char) (r3 : Nat) (h3 : r3 < 2 ^ 16)
    (h : (main c t devid choice).miscReads.get? 3 = some (some r3)) :
    (main c t devid choice).final.misc0 = r3 ∧
    ∀ q ∈ (main c t devid choice).patchWrites,
      q.cmd = Cmd.ETHTOOL_SEEPROM ∧ q.data = r3 ^^^ 0x0800 := by
  have h3 : r3 < 65536 := h3
  revert h
  refine Post_main (fun R => R.miscReads.get? 3 = some (some r3) →
    R.final.misc0 = r3 ∧
    ∀ q ∈ R.patchWrites, q.cmd = Cmd.ETHTOOL_SEEPROM ∧ q.data = r3 ^^^ 0x0800)
    c t devid choice ?_
  simp only [body, resolve, verifyLoop, checkConsistent, patch, patchLoop, checksum, init, die,
    Sat_andThen, Sat_ioctlOrDie, Sat_cont, Sat_died, Sat_ite, track_eeprom, track_trace,
    track_emp_offset, track_phy_offset, track_phy_cap_size, track_patching, track_misc0,
    track_change_count, List.nil_append, List.cons_append,
    List.append_assoc]
  repeat' first
    | refine And.intro ?_ ?_
    | (intro h; try (have hh : t _ _ = _ := h; clear hh h))
  all_goals
    unfold Post
    simp only [Result.miscReads, Result.patchWrites, Result.responses, Result.requests]
    intro h
    simp at h
    try (subst h
         simp [Nat.mod_eq_of_lt, payload_eq, h3])

/-- C10, witness: with the readings `0, 0, 0, 0x0412` and a confirmation, all four
instances are written with `0x0C12`, also the three that read zero. -/
theorem C10_authoritative_is_last_reading_witness :
    (main i40e lastOnly 0x1572 'y').miscReads.get? 3 = some (some 0x0412) ∧
    (main i40e lastOnly 0x1572 'y').final.misc0 = 0x0412 ∧
    (main i40e lastOnly 0x1572 'y').patchWrites.map Eeprom.data =
      [0x0C12, 0x0C12, 0x0C12, 0x0C12] :=
  ⟨by decide,
   (C10_authoritative_is_last_reading i40e lastOnly 0x1572 'y' 0x0412 (by decide)
      (by decide)).1,
   by decide⟩

end Xl710Unlock
